import Mathlib

/-!
Formal model of the submission analytics engine implemented in
src/pages/teacher.py (a single-file Streamlit dashboard).

Modelling conventions:
* Python strings are modelled as Lean `String`; per-character operations
  (startswith, substring search, regex search) work on `String.data`,
  the list of code points, which matches Python's per-code-point view.
* Timestamps are modelled as `Nat` (seconds since an epoch); pandas
  hour truncation (`resample` with rule H) becomes division by 3600.
* Python floats are modelled as `ℚ`; the quantities computed by the page
  (count / len * 100) are exact in every scenario considered.
* `pandas.Series.str.contains` is called with its defaults, so the query
  is interpreted as a regular expression searched anywhere in the string
  (re.search semantics).  `reSearch` models that matcher ONLY for the
  fragment of patterns built from ordinary literal characters plus the
  dot metacharacter (dot matches any character except newline); it is
  not a model of re for patterns holding other metacharacters such as
  plus, star, dollar or brackets.  Every theorem that quantifies over
  query strings therefore restricts them to this fragment through the
  `modelledPattern` predicate.
-/

namespace Teacher

/-- A normalized submission row: all eight scalar fields present.
Field names follow the `student_submissions` table columns used by
teacher.py. -/
structure Submission where
  student_id : String
  answer_1 : String
  answer_2 : String
  answer_3 : String
  feedback_1 : String
  feedback_2 : String
  feedback_3 : String
  model : String
  created_at : Nat
deriving DecidableEq

/-- Python `s.startswith(pre)`: `pre` is a code-point-wise prefix of `s`.
Models the vectorized `.str.startswith("O:")` of teacher.py lines 43-45. -/
def pyStartswith (s pre : String) : Bool :=
  pre.data.isPrefixOf s.data

/-- Plain (non-regex) substring containment of `pat` in a character list:
some suffix of the list starts with `pat`. -/
def listInfix (pat : List Char) : List Char → Bool
  | [] => pat.isPrefixOf []
  | c :: t => pat.isPrefixOf (c :: t) || listInfix pat t

/-- Plain substring containment on strings (the spec's reading of
"contains q as a plain substring"). -/
def strContains (s q : String) : Bool :=
  listInfix q.data s.data

/-- Regex matching anchored at the current position, for patterns built
from ordinary literal characters and the dot metacharacter (which, as in
Python `re`, matches any one character except a newline).  This models
only that fragment of the `re` engine; patterns holding other
metacharacters are outside the model, and theorems quantifying over
patterns exclude them through `modelledPattern`. -/
def reMatchHere : List Char → List Char → Bool
  | [], _ => true
  | _ :: _, [] => false
  | p :: ps, c :: cs => ((p == '.' && !(c == '\n')) || p == c) && reMatchHere ps cs

/-- Python `re.search` for patterns of the modelled fragment: the
pattern matches at some position of the string. -/
def reSearch (pat : List Char) : List Char → Bool
  | [] => reMatchHere pat []
  | c :: t => reMatchHere pat (c :: t) || reSearch pat t

/-- `pandas.Series.str.contains(pat)` with its default `regex=True`:
`re.search` of the pattern in the string.  Faithful to the program only
for patterns of the modelled fragment (see `modelledPattern`). -/
def pyStrContainsRegex (s pat : String) : Bool :=
  reSearch pat.data s.data

/-- The characters the Python `re` engine treats specially (the
documented special characters of the `re` module). -/
def reMeta : List Char :=
  ['.', '^', '$', '*', '+', '?', '\x7b', '\x7d', '[', ']', '\\', '|', '(', ')']

/-- Whether `re` treats a character as an ordinary literal standing for
itself. -/
def isRegexLiteral (c : Char) : Bool :=
  !(reMeta.contains c)

/-- Patterns inside the modelled regex fragment: every character is
either an ordinary literal or the dot metacharacter.  Theorems about
the search quantify only over such patterns, since `reSearch` does not
model `re` outside the fragment. -/
def modelledPattern (q : String) : Bool :=
  q.data.all (fun c => isRegexLiteral c || c == '.')

/-! ### Metrics (teacher.py lines 40-52) -/

/-- Line 43: `df['feedback_1'].str.startswith("O:").sum()`. -/
def q1_pass (subs : List Submission) : Nat :=
  subs.countP (fun s => pyStartswith s.feedback_1 "O:")

/-- Line 44: `df['feedback_2'].str.startswith("O:").sum()`. -/
def q2_pass (subs : List Submission) : Nat :=
  subs.countP (fun s => pyStartswith s.feedback_2 "O:")

/-- Line 45: `df['feedback_3'].str.startswith("O:").sum()`. -/
def q3_pass (subs : List Submission) : Nat :=
  subs.countP (fun s => pyStartswith s.feedback_3 "O:")

/-- Line 48: `q1_pass/len(df)*100`. -/
def pass_rate_1 (subs : List Submission) : ℚ :=
  (q1_pass subs : ℚ) / (subs.length : ℚ) * 100

/-- Line 50: `q2_pass/len(df)*100`. -/
def pass_rate_2 (subs : List Submission) : ℚ :=
  (q2_pass subs : ℚ) / (subs.length : ℚ) * 100

/-- Line 52: `q3_pass/len(df)*100`. -/
def pass_rate_3 (subs : List Submission) : ℚ :=
  (q3_pass subs : ℚ) / (subs.length : ℚ) * 100

/-! ### Time-series bucketing (teacher.py line 74)

`df.set_index('created_at').resample('H').size()` produces one bin per
hour from the hour of the earliest timestamp to the hour of the latest
timestamp inclusive, each bin counting the rows whose timestamp
truncates to that hour (empty bins are present with count 0). -/

/-- Hour index of a timestamp (hour truncation divided by 3600). -/
def hourIdx (t : Nat) : Nat := t / 3600

/-- Minimum of a list of naturals (0 on the empty list; only used on
non-empty lists). -/
def minN : List Nat → Nat
  | [] => 0
  | x :: xs => xs.foldr Nat.min x

/-- Maximum of a list of naturals (0 on the empty list; only used on
non-empty lists). -/
def maxN : List Nat → Nat
  | [] => 0
  | x :: xs => xs.foldr Nat.max x

/-- Hour indices of a list of timestamps. -/
def hoursOf (ts : List Nat) : List Nat := ts.map hourIdx

/-- `resample('H').size()` over a list of timestamps: one `(bucket_start,
count)` pair per hour between the earliest and the latest hour, in
ascending order, counting the timestamps falling in that hour. -/
def bucketizeT (ts : List Nat) : List (Nat × Nat) :=
  if ts.isEmpty then []
  else
    (List.range (maxN (hoursOf ts) + 1 - minN (hoursOf ts))).map
      (fun i =>
        ((minN (hoursOf ts) + i) * 3600,
         ts.countP (fun t => hourIdx t == minN (hoursOf ts) + i)))

/-- Line 74 applied to the canonical set: bucket its `created_at`
timestamps. -/
def bucketize (subs : List Submission) : List (Nat × Nat) :=
  bucketizeT (subs.map (fun s => s.created_at))

/-- Hour index of the earliest submission of a set. -/
def minHourOf (subs : List Submission) : Nat :=
  minN (hoursOf (subs.map (fun s => s.created_at)))

/-- Hour index of the latest submission of a set. -/
def maxHourOf (subs : List Submission) : Nat :=
  maxN (hoursOf (subs.map (fun s => s.created_at)))

/-! ### Search, detail view and export (teacher.py lines 83-124) -/

/-- Lines 84-87: an empty query (falsy in Python) keeps the whole set,
otherwise `df[df['student_id'].str.contains(search_id)]` keeps the rows
whose student_id contains a regex match of the query. -/
def filter_by_student (subs : List Submission) (q : String) : List Submission :=
  if q = "" then subs
  else subs.filter (fun s => pyStrContainsRegex s.student_id q)

/-- Line 94: `display_df[display_df['student_id'] == selected].iloc[0]`,
the first row of the displayed set bearing the selected student_id
(`none` when there is no such row). -/
def detailRow (display : List Submission) (sel : String) : Option Submission :=
  (display.filter (fun s => s.student_id == sel)).head?

/-- Header row of the CSV export (the eight table columns). -/
def csvHeader : List String :=
  ["student_id", "answer_1", "answer_2", "answer_3",
   "feedback_1", "feedback_2", "feedback_3", "model", "created_at"]

/-- One CSV data row for a submission. -/
def toRow (s : Submission) : List String :=
  [s.student_id, s.answer_1, s.answer_2, s.answer_3,
   s.feedback_1, s.feedback_2, s.feedback_3, s.model, toString s.created_at]

/-- Line 118: `df.to_csv(index=False)` over the canonical set `df` (not
over the filtered view and not over the sorted copy displayed at line
115, both of which are separate values).  Modelled as the list of rows
of the emitted file. -/
def to_csv (subs : List Submission) : List (List String) :=
  csvHeader :: subs.map toRow

/-- The view-layer values computed by lines 84-124: the filtered display
set and the export buffer. -/
structure ViewState where
  displayed : List Submission
  csv : List (List String)
deriving DecidableEq

/-- Lines 84-124: `display_df` comes from the search query, the CSV
always from the full `df`. -/
def renderView (subs : List Submission) (q : String) : ViewState :=
  { displayed := filter_by_student subs q
    csv := to_csv subs }

/-! ### The raw page pipeline (teacher.py lines 27-128)

The page fetches untyped records, stops with an informational empty
state when there are none (`st.stop()` raises a control-flow exception
deriving from `BaseException`, which the `except Exception` handler at
line 126 does not catch), coerces `created_at` with
`pd.to_datetime` (line 35, `errors` at its default `raise`), and
otherwise renders the dashboard.  Any exception inside the block is
caught at line 126 and rendered as a single error message.

Raw records model the dicts returned by the backend: a missing key is
`none`.  `pd.DataFrame` materializes a column when at least one record
has the key, filling the gaps with NaN; accessing a column no record
has raises `KeyError`.  `pd.to_datetime` raises on an unparseable
value but maps NaN to NaT; the vectorized `.str` operations map NaN to
NaN, and `.sum()` skips NaN, so records with a missing feedback field
are silently counted as not-passing.  Rows whose index is NaT are
dropped by `resample`. -/

/-- A raw `created_at` cell: either a string `pd.to_datetime` can parse
(abstracted to the parsed timestamp) or one it raises on. -/
inductive RawTimestamp
  | parseable (t : Nat)
  | unparseable
deriving DecidableEq

/-- One untyped record from `fetch_data` (line 14-18): any key may be
absent. -/
structure RawRecord where
  student_id : Option String
  answer_1 : Option String
  answer_2 : Option String
  answer_3 : Option String
  feedback_1 : Option String
  feedback_2 : Option String
  feedback_3 : Option String
  model : Option String
  created_at : Option RawTimestamp
deriving DecidableEq

/-- The summary counts of lines 40-45; the three rate strings of lines
48-52 are presentations of `rawRate1`-`rawRate3` below. -/
structure Metrics where
  total : Nat
  pass1 : Nat
  pass2 : Nat
  pass3 : Nat
deriving DecidableEq

/-- Terminal states of one page run: the informational empty state of
lines 29-31, the error state of lines 126-128, or a rendered dashboard
(metrics, hourly time series, CSV export buffer). -/
inductive PageResult
  | emptyData
  | pageError
  | dashboard (m : Metrics) (timeseries : List (Nat × Nat)) (csv : List (List String))
deriving DecidableEq

/-- `df['feedback_i'].str.startswith("O:").sum()` over raw records:
NaN feedback is skipped by the sum, so it contributes 0. -/
def passCountRaw (fb : RawRecord → Option String) (data : List RawRecord) : Nat :=
  data.countP (fun r =>
    match fb r with
    | some s => pyStartswith s "O:"
    | none => false)

/-- The parsed timestamps after `pd.to_datetime` in the non-raising
case: NaT (missing) cells disappear from the resampled index. -/
def parsedTimes (data : List RawRecord) : List Nat :=
  data.filterMap (fun r =>
    match r.created_at with
    | some (RawTimestamp.parseable t) => some t
    | _ => none)

/-- One CSV row of the raw frame: NaN cells are emitted as empty. -/
def toRowRaw (r : RawRecord) : List String :=
  [r.student_id.getD "", r.answer_1.getD "", r.answer_2.getD "", r.answer_3.getD "",
   r.feedback_1.getD "", r.feedback_2.getD "", r.feedback_3.getD "", r.model.getD "",
   match r.created_at with
   | some (RawTimestamp.parseable t) => toString t
   | _ => ""]

/-- The whole guarded block of lines 27-128 as a function from the
fetched records to the terminal page state.  The branch order follows
the source: the empty check (line 29), the `created_at` column access
and coercion (line 35), the feedback column accesses (lines 43-45),
then the dashboard values (search/detail widgets are modelled at the
canonical level by `filter_by_student` and `detailRow`). -/
def renderPage (data : List RawRecord) : PageResult :=
  if data.isEmpty then PageResult.emptyData
  else if data.all (fun r => r.created_at.isNone) then PageResult.pageError
  else if data.any (fun r => r.created_at == some RawTimestamp.unparseable) then
    PageResult.pageError
  else if data.all (fun r => r.feedback_1.isNone) || data.all (fun r => r.feedback_2.isNone)
      || data.all (fun r => r.feedback_3.isNone) then PageResult.pageError
  else
    PageResult.dashboard
      { total := data.length
        pass1 := passCountRaw (fun r => r.feedback_1) data
        pass2 := passCountRaw (fun r => r.feedback_2) data
        pass3 := passCountRaw (fun r => r.feedback_3) data }
      (bucketizeT (parsedTimes data))
      (csvHeader :: data.map toRowRaw)

/-- Line 48 on the raw frame: `q1_pass/len(df)*100`. -/
def rawRate1 (data : List RawRecord) : ℚ :=
  (passCountRaw (fun r => r.feedback_1) data : ℚ) / (data.length : ℚ) * 100

/-- Line 50 on the raw frame: `q2_pass/len(df)*100`. -/
def rawRate2 (data : List RawRecord) : ℚ :=
  (passCountRaw (fun r => r.feedback_2) data : ℚ) / (data.length : ℚ) * 100

/-- Line 52 on the raw frame: `q3_pass/len(df)*100`. -/
def rawRate3 (data : List RawRecord) : ℚ :=
  (passCountRaw (fun r => r.feedback_3) data : ℚ) / (data.length : ℚ) * 100

/-! ### Concrete records used in scenarios and counterexamples -/

/-- The single record of the spec's metrics scenario. -/
def scenarioSub : Submission :=
  { student_id := "10130", answer_1 := "", answer_2 := "", answer_3 := "",
    feedback_1 := "O: 정답", feedback_2 := "X: 오답", feedback_3 := "O: 정답",
    model := "gpt", created_at := 0 }

/-- A submission at timestamp 0 (hour 0). -/
def subT0 : Submission :=
  { student_id := "s1", answer_1 := "", answer_2 := "", answer_3 := "",
    feedback_1 := "", feedback_2 := "", feedback_3 := "", model := "", created_at := 0 }

/-- A submission at timestamp 7500 (hour 2); together with `subT0` it
leaves hour 1 with no submission. -/
def subT2 : Submission :=
  { student_id := "s2", answer_1 := "", answer_2 := "", answer_3 := "",
    feedback_1 := "", feedback_2 := "", feedback_3 := "", model := "", created_at := 7500 }

/-- A submission whose student_id is matched by the regex "1.3" but does
not contain "1.3" as a plain substring. -/
def subX13 : Submission :=
  { student_id := "1X3", answer_1 := "", answer_2 := "", answer_3 := "",
    feedback_1 := "", feedback_2 := "", feedback_3 := "", model := "", created_at := 0 }

/-- First of two submissions sharing student_id "10130". -/
def dupA : Submission :=
  { student_id := "10130", answer_1 := "first answer", answer_2 := "", answer_3 := "",
    feedback_1 := "O: ok", feedback_2 := "", feedback_3 := "", model := "", created_at := 0 }

/-- Second of two submissions sharing student_id "10130". -/
def dupB : Submission :=
  { student_id := "10130", answer_1 := "second answer", answer_2 := "", answer_3 := "",
    feedback_1 := "X: no", feedback_2 := "", feedback_3 := "", model := "", created_at := 60 }

/-- A raw record with every field present and a parseable timestamp. -/
def goodRaw : RawRecord :=
  { student_id := some "10130", answer_1 := some "a1", answer_2 := some "a2",
    answer_3 := some "a3", feedback_1 := some "O: ok", feedback_2 := some "X: no",
    feedback_3 := some "O: ok", model := some "gpt",
    created_at := some (RawTimestamp.parseable 0) }

/-- A raw record whose created_at cannot be parsed. -/
def badTimeRaw : RawRecord :=
  { goodRaw with created_at := some RawTimestamp.unparseable }

/-! ### Helper lemmas -/

lemma isPrefixOf_OColon (l : List Char) :
    (['O', ':'].isPrefixOf l) = decide (l.take 2 = ['O', ':']) := by
  match l with
  | [] => rfl
  | [a] =>
    rw [Bool.eq_iff_iff]
    simp [List.isPrefixOf]
  | a :: b :: t =>
    rw [Bool.eq_iff_iff]
    simp only [List.isPrefixOf, List.take, Bool.and_true, Bool.and_eq_true, beq_iff_eq,
      decide_eq_true_eq, List.cons.injEq, and_true]
    exact ⟨fun h => ⟨h.1.symm, h.2.symm⟩, fun h => ⟨h.1.symm, h.2.symm⟩⟩

lemma pyStartswith_eq_take (s : String) :
    pyStartswith s "O:" = decide (s.data.take 2 = ['O', ':']) :=
  isPrefixOf_OColon s.data

lemma nat_beq_comm (a b : Nat) : (a == b) = (b == a) := by
  by_cases h : a = b
  · subst h; rfl
  · simp [h, Ne.symm h]

lemma sum_map_boole (B : List Nat) (p : Nat → Bool) :
    (B.map (fun h => if p h then 1 else 0)).sum = B.countP p := by
  induction B with
  | nil => rfl
  | cons b t ih => by_cases h : p b <;> simp [List.countP_cons, h, ih, Nat.add_comm]

lemma sum_map_zero (B : List Nat) : (B.map (fun _ => (0 : Nat))).sum = 0 := by
  induction B with
  | nil => rfl
  | cons b t ih => simp [ih]

lemma sum_map_add_distrib (B : List Nat) (f g : Nat → Nat) :
    (B.map (fun h => f h + g h)).sum = (B.map f).sum + (B.map g).sum := by
  induction B with
  | nil => rfl
  | cons b t ih => simp only [List.map_cons, List.sum_cons, ih]; omega

/-- Summing, over a duplicate-free list of keys covering a list `s`, the
number of occurrences of each key in `s` gives the length of `s`. -/
lemma sum_map_count_eq_length (s B : List Nat) (hB : B.Nodup)
    (hcov : ∀ x ∈ s, x ∈ B) :
    (B.map (fun h => s.count h)).sum = s.length := by
  induction s with
  | nil => simp [sum_map_zero B]
  | cons a s ih =>
    have hcount : ∀ h : Nat, (a :: s).count h = s.count h + if h == a then 1 else 0 := by
      intro h
      rw [List.count_cons, nat_beq_comm]
    have hmap : B.map (fun h => (a :: s).count h)
        = B.map (fun h => s.count h + if h == a then 1 else 0) :=
      List.map_congr_left (fun h _ => hcount h)
    rw [hmap, sum_map_add_distrib, ih (fun x hx => hcov x (List.mem_cons_of_mem a hx)),
      sum_map_boole]
    have ha : B.countP (fun h => h == a) = B.count a := (List.count_eq_countP a B).symm
    rw [ha, List.count_eq_one_of_mem hB (hcov a (List.mem_cons_self a s))]
    simp

lemma foldr_min_le (xs : List Nat) (a : Nat) :
    xs.foldr Nat.min a ≤ a ∧ ∀ x ∈ xs, xs.foldr Nat.min a ≤ x := by
  induction xs with
  | nil => exact ⟨Nat.le_refl a, by simp⟩
  | cons b t ih =>
    simp only [List.foldr_cons]
    refine ⟨Nat.le_trans (Nat.min_le_right _ _) ih.1, ?_⟩
    intro x hx
    rcases List.mem_cons.mp hx with rfl | hx2
    · exact Nat.min_le_left _ _
    · exact Nat.le_trans (Nat.min_le_right _ _) (ih.2 x hx2)

lemma le_foldr_max (xs : List Nat) (a : Nat) :
    a ≤ xs.foldr Nat.max a ∧ ∀ x ∈ xs, x ≤ xs.foldr Nat.max a := by
  induction xs with
  | nil => exact ⟨Nat.le_refl a, by simp⟩
  | cons b t ih =>
    simp only [List.foldr_cons]
    refine ⟨Nat.le_trans ih.1 (Nat.le_max_right _ _), ?_⟩
    intro x hx
    rcases List.mem_cons.mp hx with rfl | hx2
    · exact Nat.le_max_left _ _
    · exact Nat.le_trans (ih.2 x hx2) (Nat.le_max_right _ _)

lemma minN_le_of_mem {l : List Nat} {x : Nat} (h : x ∈ l) : minN l ≤ x := by
  match l with
  | y :: ys =>
    rcases List.mem_cons.mp h with rfl | h2
    · exact (foldr_min_le ys x).1
    · exact (foldr_min_le ys y).2 x h2

lemma le_maxN_of_mem {l : List Nat} {x : Nat} (h : x ∈ l) : x ≤ maxN l := by
  match l with
  | y :: ys =>
    rcases List.mem_cons.mp h with rfl | h2
    · exact (le_foldr_max ys x).1
    · exact (le_foldr_max ys y).2 x h2

lemma mem_range_add (lo n x : Nat) :
    x ∈ (List.range n).map (fun i => lo + i) ↔ lo ≤ x ∧ x < lo + n := by
  simp only [List.mem_map, List.mem_range]
  constructor
  · rintro ⟨i, hi, rfl⟩; omega
  · intro h; exact ⟨x - lo, by omega, by omega⟩

lemma reMatchHere_self (l : List Char) : reMatchHere l l = true := by
  induction l with
  | nil => rfl
  | cons c t ih => simp [reMatchHere, ih]

lemma reSearch_self (l : List Char) : reSearch l l = true := by
  cases l with
  | nil => rfl
  | cons c t => simp [reSearch, reMatchHere_self]

lemma reMatchHere_no_dot (pat : List Char) (hd : '.' ∉ pat) :
    ∀ s : List Char, reMatchHere pat s = pat.isPrefixOf s := by
  induction pat with
  | nil => intro s; cases s <;> rfl
  | cons p ps ih =>
    intro s
    have hp : p ≠ '.' := fun h => hd (h ▸ List.mem_cons_self p ps)
    have hps : '.' ∉ ps := fun h => hd (List.mem_cons_of_mem p h)
    cases s with
    | nil => rfl
    | cons c cs =>
      show (((p == '.' && !(c == '\n')) || p == c) && reMatchHere ps cs)
          = (p == c && ps.isPrefixOf cs)
      rw [ih hps]
      have hfalse : (p == '.') = false := by simp [hp]
      rw [hfalse, Bool.false_and, Bool.false_or]

lemma not_dot_of_all_literal {l : List Char} (h : l.all isRegexLiteral = true) :
    '.' ∉ l := by
  intro hd
  exact absurd (List.all_eq_true.mp h '.' hd) (by decide)

lemma reSearch_no_dot (pat : List Char) (hd : '.' ∉ pat) :
    ∀ s : List Char, reSearch pat s = listInfix pat s := by
  intro s
  induction s with
  | nil =>
    show reMatchHere pat [] = pat.isPrefixOf []
    exact reMatchHere_no_dot pat hd []
  | cons c t ih =>
    show (reMatchHere pat (c :: t) || reSearch pat t)
        = (pat.isPrefixOf (c :: t) || listInfix pat t)
    rw [reMatchHere_no_dot pat hd, ih]

lemma listInfix_nil_pat (l : List Char) : listInfix [] l = true := by
  cases l <;> simp [listInfix, List.isPrefixOf]

lemma filter_head?_eq_find? {α : Type} (p : α → Bool) (l : List α) :
    (l.filter p).head? = l.find? p := by
  induction l with
  | nil => rfl
  | cons a t ih =>
    by_cases h : p a
    · rw [List.filter_cons_of_pos h, List.find?_cons_of_pos _ h]; rfl
    · rw [List.filter_cons_of_neg (by simpa using h), List.find?_cons_of_neg _ h, ih]

/-! ### Claims -/

/-- C1: for every non-empty canonical set, each pass count equals the
number of submissions whose feedback string starts with the exact
two-character prefix "O:" (a lowercase "o" or a missing colon does not
pass), each pass rate is the pass count divided by the total count times
100, and the single-record scenario with feedback "O: 정답" / "X: 오답" /
"O: 정답" yields pass counts 1, 0, 1 and pass rates 100, 0, 100. -/
theorem pass_metrics_spec (subs : List Submission) (hne : subs ≠ []) :
    (q1_pass subs = subs.countP (fun s => decide (s.feedback_1.data.take 2 = ['O', ':'])) ∧
     q2_pass subs = subs.countP (fun s => decide (s.feedback_2.data.take 2 = ['O', ':'])) ∧
     q3_pass subs = subs.countP (fun s => decide (s.feedback_3.data.take 2 = ['O', ':']))) ∧
    (pass_rate_1 subs = (q1_pass subs : ℚ) / (subs.length : ℚ) * 100 ∧
     pass_rate_2 subs = (q2_pass subs : ℚ) / (subs.length : ℚ) * 100 ∧
     pass_rate_3 subs = (q3_pass subs : ℚ) / (subs.length : ℚ) * 100) ∧
    (pyStartswith "o: 정답" "O:" = false ∧ pyStartswith "O 정답" "O:" = false) ∧
    (q1_pass [scenarioSub] = 1 ∧ q2_pass [scenarioSub] = 0 ∧ q3_pass [scenarioSub] = 1 ∧
     pass_rate_1 [scenarioSub] = 100 ∧ pass_rate_2 [scenarioSub] = 0 ∧
     pass_rate_3 [scenarioSub] = 100) := by
  refine ⟨⟨?_, ?_, ?_⟩, ⟨rfl, rfl, rfl⟩, ⟨by decide, by decide⟩,
    by decide, by decide, by decide, ?_, ?_, ?_⟩
  · exact List.countP_congr (fun s _ => by rw [pyStartswith_eq_take])
  · exact List.countP_congr (fun s _ => by rw [pyStartswith_eq_take])
  · exact List.countP_congr (fun s _ => by rw [pyStartswith_eq_take])
  · have h1 : q1_pass [scenarioSub] = 1 := by decide
    unfold pass_rate_1
    rw [h1]
    norm_num
  · have h2 : q2_pass [scenarioSub] = 0 := by decide
    unfold pass_rate_2
    rw [h2]
    norm_num
  · have h3 : q3_pass [scenarioSub] = 1 := by decide
    unfold pass_rate_3
    rw [h3]
    norm_num

/-- C1 witness: the theorem instantiated at the scenario's single-record
set. -/
theorem pass_metrics_spec_witness :
    ((q1_pass [scenarioSub]
        = [scenarioSub].countP (fun s => decide (s.feedback_1.data.take 2 = ['O', ':'])) ∧
      q2_pass [scenarioSub]
        = [scenarioSub].countP (fun s => decide (s.feedback_2.data.take 2 = ['O', ':'])) ∧
      q3_pass [scenarioSub]
        = [scenarioSub].countP (fun s => decide (s.feedback_3.data.take 2 = ['O', ':']))) ∧
     (pass_rate_1 [scenarioSub]
        = (q1_pass [scenarioSub] : ℚ) / (([scenarioSub] : List Submission).length : ℚ) * 100 ∧
      pass_rate_2 [scenarioSub]
        = (q2_pass [scenarioSub] : ℚ) / (([scenarioSub] : List Submission).length : ℚ) * 100 ∧
      pass_rate_3 [scenarioSub]
        = (q3_pass [scenarioSub] : ℚ) / (([scenarioSub] : List Submission).length : ℚ) * 100) ∧
     (pyStartswith "o: 정답" "O:" = false ∧ pyStartswith "O 정답" "O:" = false) ∧
     (q1_pass [scenarioSub] = 1 ∧ q2_pass [scenarioSub] = 0 ∧ q3_pass [scenarioSub] = 1 ∧
      pass_rate_1 [scenarioSub] = 100 ∧ pass_rate_2 [scenarioSub] = 0 ∧
      pass_rate_3 [scenarioSub] = 100)) :=
  pass_metrics_spec [scenarioSub] (by decide)

/-- C2 counterexample: with two submissions at timestamps 0 and 7500,
the export keeps the input order instead of the claimed descending
created_at order. -/
theorem export_not_sorted_cex :
    (renderView [subT0, subT2] "").csv ≠ csvHeader :: [toRow subT2, toRow subT0] := by
  decide

/-- C2 amended: the export serializes the full, unfiltered canonical set
in the set's original order, independent of the active search query;
every submission's row is present. -/
theorem export_full_unfiltered (subs : List Submission) (q : String) (sub : Submission)
    (hmem : sub ∈ subs) :
    (renderView subs q).csv = csvHeader :: subs.map toRow ∧
    (renderView subs q).csv = (renderView subs "").csv ∧
    toRow sub ∈ (renderView subs q).csv := by
  refine ⟨rfl, rfl, ?_⟩
  exact List.mem_cons_of_mem _ (List.mem_map_of_mem toRow hmem)

/-- C2 witness: a submission filtered out of the display by the query
"s2" still appears in the export. -/
theorem export_full_unfiltered_witness :
    ((renderView [subT0, subT2] "s2").csv = csvHeader :: [subT0, subT2].map toRow ∧
     (renderView [subT0, subT2] "s2").csv = (renderView [subT0, subT2] "").csv ∧
     toRow subT0 ∈ (renderView [subT0, subT2] "s2").csv) :=
  export_full_unfiltered [subT0, subT2] "s2" subT0 (by decide)

/-- C3 counterexample: the query "1.3" selects the student_id "1X3",
which does not contain "1.3" as a plain substring, because the query is
interpreted as a regular expression. -/
theorem filter_regex_cex :
    filter_by_student [subX13] "1.3" ≠
      ([subX13].filter (fun s => strContains s.student_id "1.3")) := by
  decide

/-- C3 amended: for a non-empty query inside the modelled regex
fragment (ordinary literals plus the dot metacharacter), the filter
keeps exactly the submissions whose student_id contains a regex match
of the query; when every character of the query is an ordinary regex
literal (no metacharacter at all) this coincides with plain substring
filtering. -/
theorem filter_regex_semantics (subs : List Submission) (q : String) (sub : Submission)
    (hq : q ≠ "") (_hmod : modelledPattern q = true) :
    (sub ∈ filter_by_student subs q ↔
      sub ∈ subs ∧ reSearch q.data sub.student_id.data = true) ∧
    (q.data.all isRegexLiteral = true →
      filter_by_student subs q = subs.filter (fun s => strContains s.student_id q)) := by
  constructor
  · unfold filter_by_student
    rw [if_neg hq, List.mem_filter]
    exact Iff.rfl
  · intro hlit
    unfold filter_by_student
    rw [if_neg hq]
    exact List.filter_congr
      (fun s _ => reSearch_no_dot q.data (not_dot_of_all_literal hlit) s.student_id.data)

/-- C3 witness: the theorem instantiated at a one-record set and the
metacharacter-free query "101". -/
theorem filter_regex_semantics_witness :
    ((dupA ∈ filter_by_student [dupA] "101" ↔
        dupA ∈ [dupA] ∧ reSearch "101".data dupA.student_id.data = true) ∧
     ("101".data.all isRegexLiteral = true → filter_by_student [dupA] "101" =
        [dupA].filter (fun s => strContains s.student_id "101"))) :=
  filter_regex_semantics [dupA] "101" dupA (by decide) (by decide)

/-- C4 counterexample: with submissions at hours 0 and 2, the bucket at
hour 1 (start 3600) is present in the output although no submission
falls in that hour, so the series is not sparse. -/
theorem bucketize_dense_cex :
    ((3600, 0) ∈ bucketize [subT0, subT2]) ∧
    ([subT0, subT2] : List Submission).countP (fun s => hourIdx s.created_at == 1) = 0 := by
  decide

/-- C4 amended: for a non-empty set, an hour bucket appears in the
series iff it lies between the earliest and latest submission hours
inclusive (empty intervening hours are synthesized), and each bucket's
count is the number of submissions whose timestamp truncates to that
bucket's hour. -/
theorem bucketize_dense (subs : List Submission) (hr : Nat) (p : Nat × Nat)
    (hne : subs ≠ []) (hp : p ∈ bucketize subs) :
    (hr * 3600 ∈ (bucketize subs).map Prod.fst ↔
      minHourOf subs ≤ hr ∧ hr ≤ maxHourOf subs) ∧
    p.2 = subs.countP (fun s => hourIdx s.created_at == p.1 / 3600) := by
  have hts : (subs.map (fun s => s.created_at)).isEmpty = false := by
    rcases subs with _ | ⟨a, t⟩
    · exact absurd rfl hne
    · rfl
  unfold bucketize bucketizeT at hp ⊢
  rw [hts] at hp ⊢
  simp only [Bool.false_eq_true, if_false] at hp ⊢
  constructor
  · rw [List.map_map]
    simp only [List.mem_map, List.mem_range, Function.comp]
    unfold minHourOf maxHourOf
    constructor
    · rintro ⟨i, hi, heq⟩
      constructor
      · omega
      · omega
    · rintro ⟨h1, h2⟩
      exact ⟨hr - minN (hoursOf (subs.map (fun s => s.created_at))), by omega, by omega⟩
  · simp only [List.mem_map, List.mem_range] at hp
    obtain ⟨i, hi, rfl⟩ := hp
    show (subs.map (fun s => s.created_at)).countP _ = _
    rw [List.countP_map]
    have hdiv : (minN (hoursOf (subs.map (fun s => s.created_at))) + i) * 3600 / 3600
        = minN (hoursOf (subs.map (fun s => s.created_at))) + i :=
      Nat.mul_div_cancel _ (by norm_num)
    simp only [hdiv]
    rfl

/-- C4 witness: the theorem instantiated at the two-submission set and
the empty intervening bucket at hour 1. -/
theorem bucketize_dense_witness :
    ((1 * 3600 ∈ (bucketize [subT0, subT2]).map Prod.fst ↔
      minHourOf [subT0, subT2] ≤ 1 ∧ 1 ≤ maxHourOf [subT0, subT2]) ∧
     (3600, 0).2 = ([subT0, subT2] : List Submission).countP
        (fun s => hourIdx s.created_at == (3600, 0).1 / 3600)) :=
  bucketize_dense [subT0, subT2] 1 (3600, 0) (by decide) (by decide)

/-- C5: the bucket counts of the time series sum to the number of
submissions in the set; every submission lands in exactly one bucket. -/
theorem bucketize_counts_sum (subs : List Submission) :
    ((bucketize subs).map Prod.snd).sum = subs.length := by
  unfold bucketize bucketizeT
  by_cases hs : (subs.map (fun s => s.created_at)).isEmpty
  · rw [if_pos hs]
    rcases subs with _ | ⟨a, t⟩
    · rfl
    · simp at hs
  · rw [if_neg hs]
    rw [List.map_map]
    have h1 : (Prod.snd ∘ fun i =>
          ((minN (hoursOf (subs.map (fun s => s.created_at))) + i) * 3600,
           (subs.map (fun s => s.created_at)).countP
             (fun t => hourIdx t == minN (hoursOf (subs.map (fun s => s.created_at))) + i)))
        = ((fun h => (hoursOf (subs.map (fun s => s.created_at))).count h) ∘
            (fun i => minN (hoursOf (subs.map (fun s => s.created_at))) + i)) := by
      funext i
      show (subs.map (fun s => s.created_at)).countP
          (fun t => hourIdx t == minN (hoursOf (subs.map (fun s => s.created_at))) + i)
        = (hoursOf (subs.map (fun s => s.created_at))).count
            (minN (hoursOf (subs.map (fun s => s.created_at))) + i)
      simp only [List.count_eq_countP, hoursOf, List.countP_map]
      rfl
    rw [h1, ← List.map_map]
    rw [sum_map_count_eq_length]
    · simp [hoursOf]
    · exact List.Nodup.map (fun a b hab => by omega) (List.nodup_range _)
    · intro x hx
      rw [mem_range_add]
      have hlo := minN_le_of_mem hx
      have hhi := le_maxN_of_mem hx
      omega

/-- C6: the empty query is the identity filter, both under the code's
truthiness guard and under plain substring semantics. -/
theorem filter_empty_query_id (subs : List Submission) :
    filter_by_student subs "" = subs ∧
    subs.filter (fun s => strContains s.student_id "") = subs := by
  constructor
  · simp [filter_by_student]
  · rw [List.filter_eq_self]
    intro a _
    exact listInfix_nil_pat a.student_id.data

/-- C7 counterexample: with two records sharing student_id "10130", the
detail view (the single row taken by iloc at line 94) does not present
both of them. -/
theorem detail_first_only_cex :
    ¬ (∀ sub ∈ ([dupA, dupB] : List Submission), sub.student_id = "10130" →
        sub ∈ (detailRow [dupA, dupB] "10130").toList) := by
  decide

/-- C7 amended: searching a student_id that stays inside the modelled
regex fragment surfaces every record bearing it (the query being
regex-interpreted, an id with other metacharacters is outside the
model's range), but the detail view presents only the first such record
of the displayed list. -/
theorem search_and_detail (subs : List Submission) (sel : String) (sub : Submission)
    (hmem : sub ∈ subs) (hid : sub.student_id = sel)
    (_hmod : modelledPattern sel = true) :
    sub ∈ filter_by_student subs sel ∧
    detailRow subs sel = subs.find? (fun s => s.student_id == sel) := by
  constructor
  · unfold filter_by_student
    by_cases hsel : sel = ""
    · rw [if_pos hsel]
      exact hmem
    · rw [if_neg hsel, List.mem_filter]
      refine ⟨hmem, ?_⟩
      show reSearch sel.data sub.student_id.data = true
      rw [hid]
      exact reSearch_self sel.data
  · exact filter_head?_eq_find? (fun s => s.student_id == sel) subs

/-- C7 witness: the theorem instantiated at the duplicated-id set,
showing the second duplicate surfaces in search while the detail view
resolves to the first matching record. -/
theorem search_and_detail_witness :
    (dupB ∈ filter_by_student [dupA, dupB] "10130" ∧
     detailRow [dupA, dupB] "10130" =
       ([dupA, dupB] : List Submission).find? (fun s => s.student_id == "10130")) :=
  search_and_detail [dupA, dupB] "10130" dupB (by decide) rfl (by decide)

/-- C8: an empty fetch result renders the informational empty state and
nothing else — no metrics, buckets or export are part of that terminal
state. -/
theorem renderPage_empty : renderPage [] = PageResult.emptyData := rfl

/-- C10: whenever the page reaches the dashboard state, the total count
is positive (the empty fetch stopped earlier), so the rate divisions
divide by a non-zero total. -/
theorem metrics_total_pos (data : List RawRecord) (m : Metrics)
    (ts : List (Nat × Nat)) (csv : List (List String))
    (h : renderPage data = PageResult.dashboard m ts csv) :
    0 < m.total ∧ (m.total : ℚ) ≠ 0 ∧ m.total = data.length := by
  unfold renderPage at h
  split at h
  · simp at h
  · split at h
    · simp at h
    · split at h
      · simp at h
      · split at h
        · simp at h
        · rename_i h1 h2 h3 h4
          injection h with hm hts hcsv
          rw [← hm]
          have hpos : 0 < data.length := by
            rcases data with _ | ⟨a, t⟩
            · exact absurd rfl h1
            · simp
          refine ⟨hpos, ?_, rfl⟩
          exact_mod_cast Nat.pos_iff_ne_zero.mp hpos

/-- C10 witness: the theorem instantiated at a one-record batch. -/
theorem metrics_total_pos_witness :
    (0 < (Metrics.mk 1 1 0 1).total ∧ ((Metrics.mk 1 1 0 1).total : ℚ) ≠ 0 ∧
     (Metrics.mk 1 1 0 1).total = ([goodRaw] : List RawRecord).length) :=
  metrics_total_pos [goodRaw] (Metrics.mk 1 1 0 1) [(0, 1)]
    (csvHeader :: [["10130", "a1", "a2", "a3", "O: ok", "X: no", "O: ok", "gpt", "0"]])
    (by decide)

end Teacher
